import Mathlib

/-!
Shallow embedding of the tool-calling agent core of the course-materials
RAG chatbot: the response orchestrator (backend/ai_generator.py,
AIGenerator.generate_response and AIGenerator._extract_text) and the tool
layer (backend/search_tools.py: CourseSearchTool, CourseOutlineTool,
ToolManager).

Python conventions carried over explicitly:
- Optional values are Option; Python truthiness of an Optional[str] is
  "not None and not empty", of an Optional[int] "not None and not 0".
- The Anthropic client is modelled as an oracle mapping the index of the
  API call (0-based) to the model response it returns; each call made is
  logged as an ApiCall snapshotting the parameters at call time.
- A raised exception inside tool execution is modelled as Except.error
  carrying str(e); a normal return is Except.ok.
- Mutation of self.last_sources is modelled by explicit state passing:
  execute takes the prior list and returns the new one.
-/

/-- Python truthiness of an Optional[str]: None and the empty string are falsy. -/
def truthyStr : Option String → Bool
  | none => false
  | some s => !(s == "")

/-- Python truthiness of an Optional[int]: None and 0 are falsy. -/
def truthyInt : Option Int → Bool
  | none => false
  | some n => !(n == 0)

/-- An Anthropic tool definition, kept opaque: the orchestrator only passes it through. -/
abbrev ToolDef := String

/-- The keyword arguments of one tool invocation, kept opaque. -/
abbrev ToolArgs := List (String × String)

/-- tool_manager.execute_tool as seen by the orchestrator: Except.error e models a
raised exception whose str() is e. -/
abbrev ToolExec := String → ToolArgs → Except String String

/-- One content block of a model response: text or a tool-use request
(id, name, input). -/
inductive ContentBlock where
  | text (s : String)
  | toolUse (id : String) (name : String) (input : ToolArgs)
deriving DecidableEq, Repr

/-- block.type == "text". -/
def ContentBlock.isText : ContentBlock → Bool
  | .text _ => true
  | .toolUse _ _ _ => false

/-- The text payload of a text block (empty for tool-use blocks). -/
def ContentBlock.textOf : ContentBlock → String
  | .text s => s
  | .toolUse _ _ _ => ""

/-- A model response: its stop_reason and content blocks. -/
structure ModelResponse where
  stop_reason : String
  content : List ContentBlock
deriving DecidableEq, Repr

/-- One tool_result entry of the user turn appended after a round. -/
structure ToolResult where
  tool_use_id : String
  content : String
deriving DecidableEq, Repr

/-- One turn of the running message history. -/
inductive Message where
  | userText (s : String)
  | assistantBlocks (bs : List ContentBlock)
  | userResults (rs : List ToolResult)
deriving DecidableEq, Repr

/-- The role string of a turn. -/
def Message.role : Message → String
  | .userText _ => "user"
  | .assistantBlocks _ => "assistant"
  | .userResults _ => "user"

/-- Snapshot of the api_params of one client.messages.create call:
the messages list, the system text, and the tools parameter
(none when the "tools" key was not added). -/
structure ApiCall where
  messages : List Message
  system : String
  tools : Option (List ToolDef)
deriving DecidableEq, Repr

/-- Result of one generate_response run: the returned string, the log of
API calls made (in order), and the log of tool dispatches made (in order). -/
structure GenResult where
  result : String
  calls : List ApiCall
  dispatches : List (String × ToolArgs)
deriving DecidableEq, Repr

/-- AIGenerator.SYSTEM_PROMPT (its exact text is irrelevant to the
properties proved; what matters is that it is the fixed base system text). -/
def SYSTEM_PROMPT : String :=
  " You are an AI assistant specialized in course materials and educational content with access to search and course outline tools.\n\nTool Usage:\n- **search_course_content**: Use for questions about specific course content or detailed educational materials\n- **get_course_outline**: Use when the user asks for a course outline, lesson list, course structure, table of contents, or what topics/lessons a course covers\n- **Up to 2 sequential tool calls per query** — use a second tool call only when the first result is insufficient or when a different tool would complement the answer\n- Synthesize tool results into accurate, fact-based responses\n- If a tool yields no results, state this clearly without offering alternatives\n"

/-- The system content sent with every call: the base prompt, with the
previous-conversation suffix appended only when conversation_history is truthy. -/
def systemContent (conversation_history : Option String) : String :=
  if truthyStr conversation_history then
    SYSTEM_PROMPT ++ "\n\nPrevious conversation:\n" ++ conversation_history.getD ""
  else
    SYSTEM_PROMPT

/-- Python truthiness of the tools argument (Optional[List]): None and the
empty list are falsy, so "tools" is added to api_params only then. -/
def truthyTools : Option (List ToolDef) → Bool
  | none => false
  | some ts => !ts.isEmpty

/-- The tools entry of api_params: present (and fixed for the whole query)
exactly when the tools argument was truthy at setup. -/
def apiToolsOf (tools : Option (List ToolDef)) : Option (List ToolDef) :=
  if truthyTools tools then tools else none

/-- AIGenerator._extract_text: first text block's text, scanning content in
order; empty string when there is none. -/
def extractText : List ContentBlock → String
  | [] => ""
  | .text s :: _ => s
  | .toolUse _ _ _ :: rest => extractText rest

/-- The tool_result entries produced by one round's dispatch loop, in the
order of the tool-use blocks of the response; a raised exception becomes
the "Tool execution error: " ++ str(e) content. -/
def roundResults (exec : ToolExec) : List ContentBlock → List ToolResult
  | [] => []
  | .text _ :: rest => roundResults exec rest
  | .toolUse id name input :: rest =>
      (match exec name input with
       | .ok r => ToolResult.mk id r
       | .error e => ToolResult.mk id ("Tool execution error: " ++ e)) :: roundResults exec rest

/-- tool_failed after one round's dispatch loop: some dispatch raised. -/
def roundFailed (exec : ToolExec) : List ContentBlock → Bool
  | [] => false
  | .text _ :: rest => roundFailed exec rest
  | .toolUse _ name input :: rest =>
      (match exec name input with
       | .ok _ => false
       | .error _ => true) || roundFailed exec rest

/-- The (name, input) pairs dispatched while processing one response's
content, in order. -/
def roundDispatches : List ContentBlock → List (String × ToolArgs)
  | [] => []
  | .text _ :: rest => roundDispatches rest
  | .toolUse _ name input :: rest => (name, input) :: roundDispatches rest

/-- The ids of the tool-use blocks of a response, in order. -/
def toolUseIds : List ContentBlock → List String
  | [] => []
  | .text _ :: rest => toolUseIds rest
  | .toolUse id _ _ :: rest => id :: toolUseIds rest

/-- MAX_TOOL_ROUNDS in generate_response. -/
def MAX_TOOL_ROUNDS : Nat := 2

/-- The messages list after one round: append the assistant's tool-use turn
verbatim, then (only when the round produced any tool_result entries) one
user turn carrying them all. -/
def afterRoundMsgs (exec : ToolExec) (c : List ContentBlock) (msgs : List Message) :
    List Message :=
  let msgs1 := msgs ++ [Message.assistantBlocks c]
  if (roundResults exec c).isEmpty then msgs1
  else msgs1 ++ [Message.userResults (roundResults exec c)]

/-- The for-loop of generate_response, with the remaining iteration budget as
fuel. State: the response just received, the running messages list, the log
of calls made so far (its length is the index the oracle answers next), and
the dispatch log. Mirrors backend/ai_generator.py lines 91-126. -/
def genLoop (oracle : Nat → ModelResponse) (exec : ToolExec) (hm : Bool)
    (apiTools : Option (List ToolDef)) (sys : String) :
    Nat → ModelResponse → List Message → List ApiCall → List (String × ToolArgs) → GenResult
  | 0, resp, _, calls, disp => GenResult.mk (extractText resp.content) calls disp
  | n + 1, resp, msgs, calls, disp =>
    if resp.stop_reason ≠ "tool_use" ∨ hm = false then
      GenResult.mk (extractText resp.content) calls disp
    else
      let msgs2 := afterRoundMsgs exec resp.content msgs
      let calls2 := calls ++ [ApiCall.mk msgs2 sys apiTools]
      let disp2 := disp ++ roundDispatches resp.content
      if roundFailed exec resp.content then
        GenResult.mk (extractText (oracle calls.length).content) calls2 disp2
      else
        genLoop oracle exec hm apiTools sys n (oracle calls.length) msgs2 calls2 disp2

/-- AIGenerator.generate_response: build system content and api_params, make
the initial call, then run the round loop with MAX_TOOL_ROUNDS budget.
hm is the truthiness of the tool_manager argument. -/
def generate_response (oracle : Nat → ModelResponse) (exec : ToolExec) (query : String)
    (conversation_history : Option String) (tools : Option (List ToolDef)) (hm : Bool) :
    GenResult :=
  genLoop oracle exec hm (apiToolsOf tools) (systemContent conversation_history)
    MAX_TOOL_ROUNDS (oracle 0)
    [Message.userText query]
    [ApiCall.mk [Message.userText query] (systemContent conversation_history) (apiToolsOf tools)]
    []

/-! ## The tool layer (backend/search_tools.py) -/

/-- The per-document metadata mapping of a backend search result:
meta.get("course_title", "unknown") and meta.get("lesson_number"). -/
structure Meta where
  course_title : Option String
  lesson_number : Option Int
deriving DecidableEq, Repr

/-- SearchResults as consumed by CourseSearchTool: parallel documents and
metadata, plus an optional error string. -/
structure SearchResults where
  documents : List String
  metadata : List Meta
  error : Option String
deriving DecidableEq, Repr

/-- Modelled from the spec: SearchResults.is_empty is defined in
backend/vector_store.py, which is not part of the provided sources; per the
spec's "Zero matches → return a templated no-content message", it holds
exactly when the backend returned zero matched documents. -/
def SearchResults.is_empty (r : SearchResults) : Bool := r.documents.isEmpty

/-- One lesson record of an outline payload; a missing key is none. -/
structure OutlineLesson where
  lesson_number : Option Int
  lesson_title : Option String
deriving DecidableEq, Repr

/-- The outline payload returned by store.get_course_outline: "title" is a
required key, the rest are read with .get defaults. -/
structure Outline where
  title : String
  course_link : Option String
  instructor : Option String
  lesson_count : Option Int
  lessons : Option (List OutlineLesson)
deriving DecidableEq, Repr

/-- The vector-search backend interface the two tools consume
(VectorStore lives in backend/vector_store.py and is out of scope;
only its call signatures matter here). -/
structure VectorStore where
  search : String → Option String → Option Int → SearchResults
  get_lesson_link : String → Int → Option String
  get_course_link : String → Option String
  get_course_outline : String → Option Outline

/-- The body of CourseSearchTool._format_results for one (doc, meta) pair:
returns the formatted chunk and the SourceEntry recorded for it. The link
resolution follows the source: a lesson link is tried when lesson_number is
not None; if the link is falsy and the title is not "unknown", fall back to
the course link; a truthy link renders the source as a markdown link. -/
def formatChunk (store : VectorStore) (dm : String × Meta) : String × String :=
  let course_title := dm.2.course_title.getD "unknown"
  let lesson_num := dm.2.lesson_number
  let header := "[" ++ course_title ++
    (match lesson_num with
     | some n => " - Lesson " ++ toString n
     | none => "") ++ "]"
  let source_text := course_title ++
    (match lesson_num with
     | some n => " - Lesson " ++ toString n
     | none => "")
  let link0 : Option String :=
    match lesson_num with
    | some n => store.get_lesson_link course_title n
    | none => none
  let link : Option String :=
    if !truthyStr link0 && !(course_title == "unknown") then store.get_course_link course_title
    else link0
  let source :=
    if truthyStr link then "[" ++ source_text ++ "](" ++ link.getD "" ++ ")"
    else source_text
  (header ++ "\n" ++ dm.1, source)

/-- CourseSearchTool._format_results: formatted chunks joined by blank lines,
and the per-chunk SourceEntry list (same order) that overwrites last_sources. -/
def format_results (store : VectorStore) (results : SearchResults) : String × List String :=
  let pairs := results.documents.zip results.metadata
  (String.intercalate "\n\n" (pairs.map (fun dm => (formatChunk store dm).1)),
   pairs.map (fun dm => (formatChunk store dm).2))

/-- CourseSearchTool.execute with explicit last_sources state passing: the
returned pair is (answer string, last_sources after the call). -/
def CourseSearchTool.execute (store : VectorStore) (last_sources : List String)
    (query : String) (course_name : Option String) (lesson_number : Option Int) :
    String × List String :=
  let results := store.search query course_name lesson_number
  if truthyStr results.error then
    (results.error.getD "", last_sources)
  else if results.is_empty then
    let filter_info :=
      (if truthyStr course_name then " in course '" ++ course_name.getD "" ++ "'" else "") ++
      (if truthyInt lesson_number then " in lesson " ++ toString (lesson_number.getD 0) else "")
    ("No relevant content found" ++ filter_info ++ ".", last_sources)
  else
    format_results store results

/-- One line of the outline's lesson list: lesson.get("lesson_number", "?")
and lesson.get("lesson_title", "Untitled"), with the source's two-space indent. -/
def lessonLine (l : OutlineLesson) : String :=
  "  Lesson " ++
  (match l.lesson_number with
   | some n => toString n
   | none => "?") ++ ": " ++ l.lesson_title.getD "Untitled"

/-- The parts list built by CourseOutlineTool._format_outline, before joining
with newlines. -/
def outlineParts (o : Outline) : List String :=
  ["Course: " ++ o.title, "Instructor: " ++ o.instructor.getD "Unknown"] ++
  (if truthyStr o.course_link then ["Course Link: " ++ o.course_link.getD ""] else []) ++
  ["Total Lessons: " ++ toString (o.lesson_count.getD 0), "", "Lessons:"] ++
  (o.lessons.getD []).map lessonLine

/-- CourseOutlineTool._format_outline: the joined outline text and the
single-entry SourceEntry list that overwrites last_sources. -/
def format_outline (o : Outline) : String × List String :=
  (String.intercalate "\n" (outlineParts o),
   if truthyStr o.course_link then ["[" ++ o.title ++ "](" ++ o.course_link.getD "" ++ ")"]
   else [o.title])

/-- CourseOutlineTool.execute with explicit last_sources state passing. -/
def CourseOutlineTool.execute (store : VectorStore) (last_sources : List String)
    (course_name : String) : String × List String :=
  match store.get_course_outline course_name with
  | none => ("No course found matching '" ++ course_name ++ "'.", last_sources)
  | some outline => format_outline outline

/-! ## The registry (ToolManager) -/

/-- A registered tool as seen by ToolManager.get_last_sources: its name,
whether it has a last_sources attribute, and that attribute's value. -/
structure RegTool where
  name : String
  tracksSources : Bool
  last_sources : List String
deriving DecidableEq, Repr

/-- ToolManager.get_last_sources: scan registered tools in registration
order and return the first truthy last_sources attribute found, else []. -/
def get_last_sources : List RegTool → List String
  | [] => []
  | t :: rest =>
    if t.tracksSources && !t.last_sources.isEmpty then t.last_sources
    else get_last_sources rest

/-- ToolManager.reset_sources: clear last_sources on every tool that has it. -/
def reset_sources (ts : List RegTool) : List RegTool :=
  ts.map (fun t => if t.tracksSources then RegTool.mk t.name t.tracksSources [] else t)

/-- Apply one tool-execution event (index of the executed tool, the
last_sources it wrote) to the registry state: that tool's set is overwritten. -/
def applyEvent : List RegTool → Nat × List String → List RegTool
  | [], _ => []
  | t :: rest, (0, srcs) => RegTool.mk t.name t.tracksSources srcs :: rest
  | t :: rest, (n + 1, srcs) => t :: applyEvent rest (n, srcs)

/-- Apply a history of tool-execution events in order. -/
def applyEvents (ts : List RegTool) (es : List (Nat × List String)) : List RegTool :=
  es.foldl applyEvent ts

/-- Helper for the spec-side reading of "most recent non-empty set": scan the
reversed event history, skipping tools already superseded by a later write. -/
def mostRecentAux : List (Nat × List String) → List Nat → List String
  | [], _ => []
  | (i, srcs) :: rest, seen =>
    if seen.contains i then mostRecentAux rest seen
    else if !srcs.isEmpty then srcs
    else mostRecentAux rest (i :: seen)

/-- Spec-side definition, following the spec's words "the most recent
non-empty set across all registered tools" (tools start with empty sets):
among the tools whose current set is non-empty, the set most recently
written wins. Written only to be compared against get_last_sources. -/
def specMostRecentSources (es : List (Nat × List String)) : List String :=
  mostRecentAux es.reverse []

/-- A backend whose search always reports zero matches and no error, with no
links and no outline; used by concrete witnesses. -/
def storeEmpty : VectorStore :=
  VectorStore.mk (fun _ _ _ => SearchResults.mk [] [] none) (fun _ _ => none) (fun _ => none)
    (fun _ => none)

/-- A backend whose search always reports the error "backend down". -/
def storeErr : VectorStore :=
  VectorStore.mk (fun _ _ _ => SearchResults.mk [] [] (some "backend down")) (fun _ _ => none)
    (fun _ => none) (fun _ => none)

/-- A model that never requests tools: one terminal text response. -/
def oracleText : Nat → ModelResponse :=
  fun _ => ModelResponse.mk "end_turn" [ContentBlock.text "hi"]

/-- A dispatcher whose every execution succeeds with "ok". -/
def execOk : ToolExec := fun _ _ => Except.ok "ok"

/-- A first-round model response requesting the search tool. -/
def respTool1 : ModelResponse :=
  ModelResponse.mk "tool_use"
    [ContentBlock.toolUse "t1" "search_course_content" [("query", "x")]]

/-- A second-round model response requesting the outline tool. -/
def respTool2 : ModelResponse :=
  ModelResponse.mk "tool_use"
    [ContentBlock.toolUse "t2" "get_course_outline" [("course_name", "MCP")]]

/-- A third response that still requests a tool but also carries text. -/
def respFinal : ModelResponse :=
  ModelResponse.mk "tool_use"
    [ContentBlock.toolUse "t3" "search_course_content" [("query", "y")],
     ContentBlock.text "final answer"]

/-- A model that requests tools on the first two calls and then keeps asking. -/
def oracleTwoRounds : Nat → ModelResponse :=
  fun n => if n = 0 then respTool1 else if n = 1 then respTool2 else respFinal

/-- A dispatcher that raises on the outline tool and succeeds otherwise. -/
def execFail : ToolExec :=
  fun name _ =>
    if name = "get_course_outline" then Except.error "connection failed" else Except.ok "ok"

/-- A model whose first response requests the (failing) outline tool and whose
next response is terminal text. -/
def oracleFailFirst : Nat → ModelResponse :=
  fun n =>
    if n = 0 then respTool2 else ModelResponse.mk "end_turn" [ContentBlock.text "recovered"]

/-- A concrete outline payload whose lesson_count (5) disagrees with its
lessons list (2 entries), one lesson having both keys missing. -/
def outlineW : Outline :=
  Outline.mk "Course X" (some "http://x") (some "Ana") (some 5)
    (some [OutlineLesson.mk (some 1) (some "Intro"), OutlineLesson.mk none none])

/-- A one-tool registry whose tool holds sources ["X"]. -/
def tsW : List RegTool := [RegTool.mk "search_course_content" true ["X"]]

/-- A backend returning one matched chunk with lesson metadata and links,
and always resolving outlines to outlineW. -/
def storeFull : VectorStore :=
  VectorStore.mk
    (fun _ _ _ => SearchResults.mk ["chunk A"] [Meta.mk (some "Intro") (some 1)] none)
    (fun _ _ => some "http://l1") (fun _ => some "http://c") (fun _ => some outlineW)

/-! ## Helper lemmas -/

/-- extractText is the text of the first text block, in scan order. -/
lemma extractText_eq_find (bs : List ContentBlock) :
    extractText bs = (((bs.find? ContentBlock.isText).map ContentBlock.textOf).getD "") := by
  induction bs with
  | nil => simp [extractText]
  | cons b rest ih =>
    cases b with
    | text s => simp [extractText, List.find?, ContentBlock.isText, ContentBlock.textOf]
    | toolUse id name input =>
      simpa [extractText, List.find?, ContentBlock.isText] using ih

/-- A response with no text block extracts to the empty string. -/
lemma extractText_eq_empty (bs : List ContentBlock)
    (h : ∀ b ∈ bs, ContentBlock.isText b = false) : extractText bs = "" := by
  induction bs with
  | nil => rfl
  | cons b rest ih =>
    cases b with
    | text s =>
      have hh := h (ContentBlock.text s) (List.mem_cons_self _ _)
      simp [ContentBlock.isText] at hh
    | toolUse id name input =>
      exact ih (fun b hb => h b (by simp [hb]))

/-- One tool_result entry per tool-use block, in the same order. -/
lemma roundResults_length (exec : ToolExec) (c : List ContentBlock) :
    (roundResults exec c).length = (roundDispatches c).length := by
  induction c with
  | nil => rfl
  | cons b rest ih =>
    cases b with
    | text s => simpa [roundResults, roundDispatches] using ih
    | toolUse id name input => simpa [roundResults, roundDispatches] using ih

/-- The tool_result entries carry the requests' ids in request order. -/
lemma roundResults_ids (exec : ToolExec) (c : List ContentBlock) :
    (roundResults exec c).map ToolResult.tool_use_id = toolUseIds c := by
  induction c with
  | nil => rfl
  | cons b rest ih =>
    cases b with
    | text s => simpa [roundResults, toolUseIds] using ih
    | toolUse id name input =>
      cases hx : exec name input with
      | ok r => simpa [roundResults, toolUseIds, hx] using ih
      | error e => simpa [roundResults, toolUseIds, hx] using ih

/-- A failed round has at least one tool_result entry. -/
lemma roundFailed_results_ne_nil (exec : ToolExec) (c : List ContentBlock)
    (h : roundFailed exec c = true) : roundResults exec c ≠ [] := by
  induction c with
  | nil => simp [roundFailed] at h
  | cons b rest ih =>
    cases b with
    | text s =>
      simp only [roundFailed] at h
      simpa [roundResults] using ih h
    | toolUse id name input => simp [roundResults]

/-- A dispatch that raised with message e contributes a tool_result entry whose
content is exactly "Tool execution error: " ++ e, with the request's id. -/
lemma roundResults_error_mem (exec : ToolExec) (c : List ContentBlock)
    (id name : String) (input : ToolArgs) (e : String)
    (hb : ContentBlock.toolUse id name input ∈ c) (hx : exec name input = Except.error e) :
    ToolResult.mk id ("Tool execution error: " ++ e) ∈ roundResults exec c := by
  induction c with
  | nil => cases hb
  | cons b rest ih =>
    rcases List.mem_cons.mp hb with hb1 | hb1
    · subst hb1
      simp [roundResults, hx]
    · have hmem := ih hb1
      cases b with
      | text s => simpa [roundResults] using hmem
      | toolUse id2 name2 input2 =>
        have hunfold : roundResults exec (ContentBlock.toolUse id2 name2 input2 :: rest) =
            (match exec name2 input2 with
             | Except.ok r => ToolResult.mk id2 r
             | Except.error e2 =>
               ToolResult.mk id2 ("Tool execution error: " ++ e2)) :: roundResults exec rest :=
          rfl
        rw [hunfold]
        exact List.mem_cons_of_mem _ hmem

/-- The loop makes at most one API call per unit of fuel. -/
lemma genLoop_calls_le (oracle : Nat → ModelResponse) (exec : ToolExec) (hm : Bool)
    (apiTools : Option (List ToolDef)) (sys : String) :
    ∀ (n : Nat) (resp : ModelResponse) (msgs : List Message) (calls : List ApiCall)
      (disp : List (String × ToolArgs)),
      (genLoop oracle exec hm apiTools sys n resp msgs calls disp).calls.length ≤
        calls.length + n := by
  intro n
  induction n with
  | zero => intro resp msgs calls disp; simp [genLoop]
  | succ n ih =>
    intro resp msgs calls disp
    simp only [genLoop]
    by_cases h : resp.stop_reason ≠ "tool_use" ∨ hm = false
    · rw [if_pos h]; simp
    · rw [if_neg h]
      by_cases hf : roundFailed exec resp.content = true
      · rw [if_pos hf]; simp
      · rw [if_neg hf]
        calc (genLoop oracle exec hm apiTools sys n (oracle calls.length)
                (afterRoundMsgs exec resp.content msgs)
                (calls ++ [ApiCall.mk (afterRoundMsgs exec resp.content msgs) sys apiTools])
                (disp ++ roundDispatches resp.content)).calls.length ≤
              (calls ++ [ApiCall.mk (afterRoundMsgs exec resp.content msgs) sys apiTools]).length
                + n := ih _ _ _ _
          _ ≤ calls.length + (n + 1) := by simp [List.length_append]; omega

/-- Every call the loop adds carries the fixed tools entry. -/
lemma genLoop_tools_inv (oracle : Nat → ModelResponse) (exec : ToolExec) (hm : Bool)
    (apiTools : Option (List ToolDef)) (sys : String) :
    ∀ (n : Nat) (resp : ModelResponse) (msgs : List Message) (calls : List ApiCall)
      (disp : List (String × ToolArgs)),
      (∀ a ∈ calls, a.tools = apiTools) →
      ∀ a ∈ (genLoop oracle exec hm apiTools sys n resp msgs calls disp).calls,
        a.tools = apiTools := by
  intro n
  induction n with
  | zero => intro resp msgs calls disp hc; simpa [genLoop] using hc
  | succ n ih =>
    intro resp msgs calls disp hc
    simp only [genLoop]
    by_cases h : resp.stop_reason ≠ "tool_use" ∨ hm = false
    · rw [if_pos h]; simpa using hc
    · rw [if_neg h]
      have hc2 : ∀ a ∈ calls ++ [ApiCall.mk (afterRoundMsgs exec resp.content msgs) sys apiTools],
          a.tools = apiTools := by
        intro a ha
        rcases List.mem_append.mp ha with ha | ha
        · exact hc a ha
        · simp at ha; subst ha; rfl
      by_cases hf : roundFailed exec resp.content = true
      · rw [if_pos hf]; simpa using hc2
      · rw [if_neg hf]
        exact ih _ _ _ _ hc2

/-- Terminal step: a non-tool-use stop reason, or no tool manager, returns at once. -/
lemma genLoop_terminal (oracle : Nat → ModelResponse) (exec : ToolExec) (hm : Bool)
    (apiTools : Option (List ToolDef)) (sys : String) (n : Nat) (resp : ModelResponse)
    (msgs : List Message) (calls : List ApiCall) (disp : List (String × ToolArgs))
    (h : resp.stop_reason ≠ "tool_use" ∨ hm = false) :
    genLoop oracle exec hm apiTools sys (n + 1) resp msgs calls disp =
      GenResult.mk (extractText resp.content) calls disp := by
  simp only [genLoop]
  rw [if_pos h]

/-- Round step, no dispatch failure: append the two turns, log the follow-up
call and the dispatches, and continue with one unit of fuel less. -/
lemma genLoop_round_ok (oracle : Nat → ModelResponse) (exec : ToolExec)
    (apiTools : Option (List ToolDef)) (sys : String) (n : Nat) (resp : ModelResponse)
    (msgs : List Message) (calls : List ApiCall) (disp : List (String × ToolArgs))
    (k : Nat) (hk : calls.length = k)
    (h0 : resp.stop_reason = "tool_use") (hf : roundFailed exec resp.content = false) :
    genLoop oracle exec true apiTools sys (n + 1) resp msgs calls disp =
      genLoop oracle exec true apiTools sys n (oracle k)
        (afterRoundMsgs exec resp.content msgs)
        (calls ++ [ApiCall.mk (afterRoundMsgs exec resp.content msgs) sys apiTools])
        (disp ++ roundDispatches resp.content) := by
  subst hk
  simp only [genLoop]
  rw [if_neg (by simp [h0]), if_neg (by simp [hf])]

/-- Round step with a dispatch failure: after the follow-up call the loop
returns that response's text immediately. -/
lemma genLoop_round_fail (oracle : Nat → ModelResponse) (exec : ToolExec)
    (apiTools : Option (List ToolDef)) (sys : String) (n : Nat) (resp : ModelResponse)
    (msgs : List Message) (calls : List ApiCall) (disp : List (String × ToolArgs))
    (k : Nat) (hk : calls.length = k)
    (h0 : resp.stop_reason = "tool_use") (hf : roundFailed exec resp.content = true) :
    genLoop oracle exec true apiTools sys (n + 1) resp msgs calls disp =
      GenResult.mk (extractText (oracle k).content)
        (calls ++ [ApiCall.mk (afterRoundMsgs exec resp.content msgs) sys apiTools])
        (disp ++ roundDispatches resp.content) := by
  subst hk
  simp only [genLoop]
  rw [if_neg (by simp [h0]), if_pos hf]

/-- The loop only ever appends to the call log. -/
lemma genLoop_calls_extend (oracle : Nat → ModelResponse) (exec : ToolExec) (hm : Bool)
    (apiTools : Option (List ToolDef)) (sys : String) :
    ∀ (n : Nat) (resp : ModelResponse) (msgs : List Message) (calls : List ApiCall)
      (disp : List (String × ToolArgs)),
      ∃ rest, (genLoop oracle exec hm apiTools sys n resp msgs calls disp).calls =
        calls ++ rest := by
  intro n
  induction n with
  | zero => intro resp msgs calls disp; exact ⟨[], by simp [genLoop]⟩
  | succ n ih =>
    intro resp msgs calls disp
    simp only [genLoop]
    by_cases h : resp.stop_reason ≠ "tool_use" ∨ hm = false
    · rw [if_pos h]; exact ⟨[], by simp⟩
    · rw [if_neg h]
      by_cases hf : roundFailed exec resp.content = true
      · rw [if_pos hf]
        exact ⟨[ApiCall.mk (afterRoundMsgs exec resp.content msgs) sys apiTools], rfl⟩
      · rw [if_neg hf]
        obtain ⟨rest, hrest⟩ := ih (oracle calls.length)
          (afterRoundMsgs exec resp.content msgs)
          (calls ++ [ApiCall.mk (afterRoundMsgs exec resp.content msgs) sys apiTools])
          (disp ++ roundDispatches resp.content)
        exact ⟨[ApiCall.mk (afterRoundMsgs exec resp.content msgs) sys apiTools] ++ rest,
          by rw [hrest, List.append_assoc]⟩

/-- A non-empty tool-result list makes the round append exactly the assistant
turn and one user turn carrying all the results. -/
lemma afterRoundMsgs_of_ne (exec : ToolExec) (c : List ContentBlock) (msgs : List Message)
    (hr : roundResults exec c ≠ []) :
    afterRoundMsgs exec c msgs =
      msgs ++ [Message.assistantBlocks c, Message.userResults (roundResults exec c)] := by
  unfold afterRoundMsgs
  rw [if_neg (by simp [hr])]
  simp

/-- Merging a constant prefix of a string concatenation. -/
lemma str_concat_left (a b c s : String) (h : a ++ b = c) : a ++ (b ++ s) = c ++ s := by
  rw [← String.append_assoc, h]

/-! ## Claim theorems -/

/-- C3: for every model response whose stop reason is not tool_use, or whenever
no tool manager is supplied, generate_response makes no further model-service
call and returns the text of the first content block of type text scanning in
order — or the empty string when that response has no text block — wherever in
the run that response arrives: as the first response (one call in total, no
dispatches), as the follow-up after one successful tool round (two calls in
total, no dispatches beyond round 1), or as the response after the second
round, where whatever arrives is terminal (three calls in total). -/
theorem c3_terminal_response (oracle : Nat → ModelResponse) (exec : ToolExec)
    (query : String) (hist : Option String) (tools : Option (List ToolDef)) (hm : Bool) :
    (((oracle 0).stop_reason ≠ "tool_use" ∨ hm = false) →
      (generate_response oracle exec query hist tools hm).calls.length = 1 ∧
      (generate_response oracle exec query hist tools hm).dispatches = [] ∧
      (generate_response oracle exec query hist tools hm).result =
        ((((oracle 0).content.find? ContentBlock.isText).map ContentBlock.textOf).getD "") ∧
      ((∀ b ∈ (oracle 0).content, ContentBlock.isText b = false) →
        (generate_response oracle exec query hist tools hm).result = "")) ∧
    ((oracle 0).stop_reason = "tool_use" → hm = true →
      roundFailed exec (oracle 0).content = false →
      (oracle 1).stop_reason ≠ "tool_use" →
      (generate_response oracle exec query hist tools hm).calls.length = 2 ∧
      (generate_response oracle exec query hist tools hm).dispatches =
        roundDispatches (oracle 0).content ∧
      (generate_response oracle exec query hist tools hm).result =
        ((((oracle 1).content.find? ContentBlock.isText).map ContentBlock.textOf).getD "") ∧
      ((∀ b ∈ (oracle 1).content, ContentBlock.isText b = false) →
        (generate_response oracle exec query hist tools hm).result = "")) ∧
    ((oracle 0).stop_reason = "tool_use" → hm = true →
      roundFailed exec (oracle 0).content = false →
      (oracle 1).stop_reason = "tool_use" →
      roundFailed exec (oracle 1).content = false →
      (generate_response oracle exec query hist tools hm).calls.length = 3 ∧
      (generate_response oracle exec query hist tools hm).dispatches =
        roundDispatches (oracle 0).content ++ roundDispatches (oracle 1).content ∧
      (generate_response oracle exec query hist tools hm).result =
        ((((oracle 2).content.find? ContentBlock.isText).map ContentBlock.textOf).getD "") ∧
      ((∀ b ∈ (oracle 2).content, ContentBlock.isText b = false) →
        (generate_response oracle exec query hist tools hm).result = "")) := by
  refine ⟨?_, ?_, ?_⟩
  · intro h
    unfold generate_response
    rw [show MAX_TOOL_ROUNDS = 1 + 1 from rfl]
    rw [genLoop_terminal _ _ _ _ _ _ _ _ _ _ h]
    exact ⟨rfl, rfl, extractText_eq_find _, fun hno => extractText_eq_empty _ hno⟩
  · intro h0 hhm hf0 h1
    subst hhm
    unfold generate_response
    rw [show MAX_TOOL_ROUNDS = 1 + 1 from rfl]
    rw [genLoop_round_ok _ _ _ _ _ _ _ _ _ 1 (by simp) h0 hf0]
    rw [show (1 : Nat) = 0 + 1 from rfl]
    rw [genLoop_terminal _ _ _ _ _ _ _ _ _ _ (Or.inl h1)]
    refine ⟨by simp, by simp, extractText_eq_find _, fun hno => extractText_eq_empty _ hno⟩
  · intro h0 hhm hf0 h1 hf1
    subst hhm
    unfold generate_response
    rw [show MAX_TOOL_ROUNDS = 1 + 1 from rfl]
    rw [genLoop_round_ok _ _ _ _ _ _ _ _ _ 1 (by simp) h0 hf0]
    rw [show (1 : Nat) = 0 + 1 from rfl]
    rw [genLoop_round_ok _ _ _ _ _ _ _ _ _ 2 (by simp) h1 hf1]
    simp only [genLoop]
    refine ⟨by simp, by simp, extractText_eq_find _, fun hno => extractText_eq_empty _ hno⟩

/-- C1: the round loop executes at most 2 tool-dispatching rounds: the call log
never exceeds 3 entries (1 initial + 2 follow-ups); and when the model keeps
requesting tools through both rounds without a dispatch failure, the dispatch
log is exactly the requests of the first two responses in order — a tool-use
request present in the third (limit-exceeding) response is never dispatched —
and the text of that third response is returned instead. -/
theorem c1_round_limit (oracle : Nat → ModelResponse) (exec : ToolExec) (query : String)
    (hist : Option String) (tools : Option (List ToolDef)) (hm : Bool) :
    (generate_response oracle exec query hist tools hm).calls.length ≤ 3 ∧
    ((oracle 0).stop_reason = "tool_use" → (oracle 1).stop_reason = "tool_use" → hm = true →
      roundFailed exec (oracle 0).content = false →
      roundFailed exec (oracle 1).content = false →
      (generate_response oracle exec query hist tools hm).dispatches =
        roundDispatches (oracle 0).content ++ roundDispatches (oracle 1).content ∧
      (generate_response oracle exec query hist tools hm).result =
        extractText (oracle 2).content) := by
  constructor
  · have hle := genLoop_calls_le oracle exec hm (apiToolsOf tools) (systemContent hist)
      MAX_TOOL_ROUNDS (oracle 0) [Message.userText query]
      [ApiCall.mk [Message.userText query] (systemContent hist) (apiToolsOf tools)] []
    unfold generate_response
    simpa [MAX_TOOL_ROUNDS] using hle
  · intro h0 h1 hhm hf0 hf1
    subst hhm
    unfold generate_response
    rw [show MAX_TOOL_ROUNDS = 1 + 1 from rfl]
    rw [genLoop_round_ok _ _ _ _ _ _ _ _ _ 1 (by simp) h0 hf0]
    rw [show (1 : Nat) = 0 + 1 from rfl]
    rw [genLoop_round_ok _ _ _ _ _ _ _ _ _ 2 (by simp) h1 hf1]
    simp [genLoop]

/-- C2: a dispatch exception surfaces as a tool_result entry whose content is
exactly "Tool execution error: " followed by the exception's message; the
failing round is followed by exactly one more model-service call whose
response's text is returned with no further dispatches; the exception never
escapes (generate_response still returns an ordinary result). Stated for a
failure in the first round and for a failure in the second round. -/
theorem c2_dispatch_exception (oracle : Nat → ModelResponse) (exec : ToolExec)
    (query : String) (hist : Option String) (tools : Option (List ToolDef)) :
    ((oracle 0).stop_reason = "tool_use" → roundFailed exec (oracle 0).content = true →
      (generate_response oracle exec query hist tools true).calls.length = 2 ∧
      (generate_response oracle exec query hist tools true).dispatches =
        roundDispatches (oracle 0).content ∧
      (generate_response oracle exec query hist tools true).result =
        extractText (oracle 1).content ∧
      ((generate_response oracle exec query hist tools true).calls.get? 1).map
          ApiCall.messages =
        some [Message.userText query, Message.assistantBlocks (oracle 0).content,
          Message.userResults (roundResults exec (oracle 0).content)] ∧
      (∀ id name input e, ContentBlock.toolUse id name input ∈ (oracle 0).content →
        exec name input = Except.error e →
        ToolResult.mk id ("Tool execution error: " ++ e) ∈
          roundResults exec (oracle 0).content)) ∧
    ((oracle 0).stop_reason = "tool_use" → roundFailed exec (oracle 0).content = false →
      (oracle 1).stop_reason = "tool_use" → roundFailed exec (oracle 1).content = true →
      (generate_response oracle exec query hist tools true).calls.length = 3 ∧
      (generate_response oracle exec query hist tools true).dispatches =
        roundDispatches (oracle 0).content ++ roundDispatches (oracle 1).content ∧
      (generate_response oracle exec query hist tools true).result =
        extractText (oracle 2).content ∧
      (∀ id name input e, ContentBlock.toolUse id name input ∈ (oracle 1).content →
        exec name input = Except.error e →
        ToolResult.mk id ("Tool execution error: " ++ e) ∈
          roundResults exec (oracle 1).content)) := by
  constructor
  · intro h0 hf0
    unfold generate_response
    rw [show MAX_TOOL_ROUNDS = 1 + 1 from rfl]
    rw [genLoop_round_fail _ _ _ _ _ _ _ _ _ 1 (by simp) h0 hf0]
    refine ⟨by simp, by simp, rfl, ?_, fun id name input e hb hx =>
      roundResults_error_mem exec _ id name input e hb hx⟩
    rw [afterRoundMsgs_of_ne exec _ _ (roundFailed_results_ne_nil exec _ hf0)]
    simp
  · intro h0 hf0 h1 hf1
    unfold generate_response
    rw [show MAX_TOOL_ROUNDS = 1 + 1 from rfl]
    rw [genLoop_round_ok _ _ _ _ _ _ _ _ _ 1 (by simp) h0 hf0]
    rw [show (1 : Nat) = 0 + 1 from rfl]
    rw [genLoop_round_fail _ _ _ _ _ _ _ _ _ 2 (by simp) h1 hf1]
    refine ⟨by simp, by simp, rfl, fun id name input e hb hx =>
      roundResults_error_mem exec _ id name input e hb hx⟩

/-- C10: an empty-string conversation history behaves exactly as no history:
the run is identical, and the system text is the bare base prompt with no
previous-conversation suffix. -/
theorem c10_empty_history (oracle : Nat → ModelResponse) (exec : ToolExec) (query : String)
    (tools : Option (List ToolDef)) (hm : Bool) :
    generate_response oracle exec query (some "") tools hm =
      generate_response oracle exec query none tools hm ∧
    systemContent (some "") = SYSTEM_PROMPT ∧ systemContent none = SYSTEM_PROMPT := by
  exact ⟨rfl, rfl, rfl⟩

/-- C4 as stated is false: with a tool manager supplied (true) but the tools
argument left None, the one model-service call made carries no tools
parameter at all. -/
theorem c4_counterexample :
    ((generate_response oracleText execOk "q" none none true).calls.map ApiCall.tools =
      [none]) ∧
    ¬ (∀ a ∈ (generate_response oracleText execOk "q" none none true).calls,
        a.tools ≠ none) := by
  constructor
  · decide
  · intro hall
    have h1 : (generate_response oracleText execOk "q" none none true).calls.map
        ApiCall.tools = [none] := by decide
    have h2 : (none : Option (List ToolDef)) ∈
        (generate_response oracleText execOk "q" none none true).calls.map ApiCall.tools := by
      rw [h1]; simp
    obtain ⟨a, ha, hae⟩ := List.mem_map.mp h2
    exact hall a ha hae

/-- C4 amended: whenever the tools argument itself is truthy (a non-None,
non-empty list), every model-service call of the query — the initial call and
every follow-up — carries exactly that tool definitions parameter. -/
theorem c4_tools_on_every_call (oracle : Nat → ModelResponse) (exec : ToolExec)
    (query : String) (hist : Option String) (tools : Option (List ToolDef)) (hm : Bool)
    (h : truthyTools tools = true) :
    ∀ a ∈ (generate_response oracle exec query hist tools hm).calls, a.tools = tools := by
  have hapi : apiToolsOf tools = tools := by unfold apiToolsOf; rw [if_pos h]
  unfold generate_response
  intro a ha
  rw [← hapi]
  refine genLoop_tools_inv oracle exec hm (apiToolsOf tools) (systemContent hist)
    MAX_TOOL_ROUNDS (oracle 0) [Message.userText query] _ [] ?_ a ha
  intro a0 ha0
  simp at ha0
  subst ha0
  rfl

/-- C5: per executed tool round the running history grows by exactly two
turns — the assistant's tool-requesting turn followed by one user turn whose
content is all of that round's tool results, whose ids are the requests' ids
in request order — so the follow-up call's history has exactly 3 turns after
one round and 5 after two; it stays at the single user turn when the model
answers directly. -/
theorem c5_history_growth (oracle : Nat → ModelResponse) (exec : ToolExec) (query : String)
    (hist : Option String) (tools : Option (List ToolDef)) :
    (∀ c : List ContentBlock,
      (roundResults exec c).map ToolResult.tool_use_id = toolUseIds c) ∧
    ((oracle 0).stop_reason ≠ "tool_use" →
      (generate_response oracle exec query hist tools true).calls.map ApiCall.messages =
        [[Message.userText query]]) ∧
    ((oracle 0).stop_reason = "tool_use" → roundResults exec (oracle 0).content ≠ [] →
      ((generate_response oracle exec query hist tools true).calls.get? 1).map
          ApiCall.messages =
        some [Message.userText query, Message.assistantBlocks (oracle 0).content,
          Message.userResults (roundResults exec (oracle 0).content)]) ∧
    ((oracle 0).stop_reason = "tool_use" → roundResults exec (oracle 0).content ≠ [] →
      roundFailed exec (oracle 0).content = false →
      (oracle 1).stop_reason = "tool_use" → roundResults exec (oracle 1).content ≠ [] →
      ((generate_response oracle exec query hist tools true).calls.get? 2).map
          ApiCall.messages =
        some [Message.userText query, Message.assistantBlocks (oracle 0).content,
          Message.userResults (roundResults exec (oracle 0).content),
          Message.assistantBlocks (oracle 1).content,
          Message.userResults (roundResults exec (oracle 1).content)]) := by
  refine ⟨roundResults_ids exec, ?_, ?_, ?_⟩
  · intro h0
    unfold generate_response
    rw [show MAX_TOOL_ROUNDS = 1 + 1 from rfl]
    rw [genLoop_terminal _ _ _ _ _ _ _ _ _ _ (Or.inl h0)]
    simp
  · intro h0 hr0
    unfold generate_response
    rw [show MAX_TOOL_ROUNDS = 1 + 1 from rfl]
    by_cases hf : roundFailed exec (oracle 0).content = true
    · rw [genLoop_round_fail _ _ _ _ _ _ _ _ _ 1 (by simp) h0 hf]
      rw [afterRoundMsgs_of_ne exec _ _ hr0]
      simp
    · rw [genLoop_round_ok _ _ _ _ _ _ _ _ _ 1 (by simp)
        h0 (Bool.not_eq_true _ ▸ hf)]
      obtain ⟨rest, hrest⟩ := genLoop_calls_extend oracle exec true (apiToolsOf tools)
        (systemContent hist) 1 (oracle 1)
        (afterRoundMsgs exec (oracle 0).content [Message.userText query])
        ([ApiCall.mk [Message.userText query] (systemContent hist) (apiToolsOf tools)] ++
          [ApiCall.mk (afterRoundMsgs exec (oracle 0).content [Message.userText query])
            (systemContent hist) (apiToolsOf tools)])
        ([] ++ roundDispatches (oracle 0).content)
      rw [hrest]
      rw [List.get?_append (by simp)]
      rw [afterRoundMsgs_of_ne exec _ _ hr0]
      simp
  · intro h0 hr0 hf0 h1 hr1
    unfold generate_response
    rw [show MAX_TOOL_ROUNDS = 1 + 1 from rfl]
    rw [genLoop_round_ok _ _ _ _ _ _ _ _ _ 1 (by simp) h0 hf0]
    by_cases hf1 : roundFailed exec (oracle 1).content = true
    · rw [show (1 : Nat) = 0 + 1 from rfl]
      rw [genLoop_round_fail _ _ _ _ _ _ _ _ _ 2 (by simp) h1 hf1]
      rw [afterRoundMsgs_of_ne exec _ _ hr1, afterRoundMsgs_of_ne exec _ _ hr0]
      simp
    · rw [show (1 : Nat) = 0 + 1 from rfl]
      rw [genLoop_round_ok _ _ _ _ _ _ _ _ _ 2 (by simp)
        h1 (Bool.not_eq_true _ ▸ hf1)]
      simp only [genLoop]
      rw [afterRoundMsgs_of_ne exec _ _ hr1, afterRoundMsgs_of_ne exec _ _ hr0]
      simp

/-- C6 as stated is false: after the first tool (in registration order) wrote
["S"] and then the second tool wrote ["O"], the most recent non-empty set is
["O"], but get_last_sources returns the first tool's ["S"]. -/
theorem c6_counterexample :
    get_last_sources (applyEvents
      [RegTool.mk "search_course_content" true [], RegTool.mk "get_course_outline" true []]
      [(0, ["S"]), (1, ["O"])]) = ["S"] ∧
    specMostRecentSources [(0, ["S"]), (1, ["O"])] = ["O"] ∧
    (["S"] : List String) ≠ ["O"] := by
  exact ⟨by decide, by decide, by decide⟩

/-- Helper: a tool that does not make get_last_sources fire while having its
last_sources attribute has an empty set. -/
lemma untriggered_empty (t : RegTool)
    (hb : ¬ ((t.tracksSources && !t.last_sources.isEmpty) = true))
    (htr : t.tracksSources = true) : t.last_sources = [] := by
  simp [htr] at hb
  exact hb

/-- C6 amended: get_last_sources returns the FIRST non-empty last_sources set
in registration-scan order — exactly one registered tool's set, never a union
or merge across tools — and the empty list when every source-tracking tool's
set is empty. -/
theorem c6_first_nonempty (ts : List RegTool) :
    (get_last_sources ts = [] ∧
      ∀ t ∈ ts, t.tracksSources = true → t.last_sources = []) ∨
    (∃ i, ∃ h : i < ts.length,
      (ts.get ⟨i, h⟩).tracksSources = true ∧
      (ts.get ⟨i, h⟩).last_sources ≠ [] ∧
      get_last_sources ts = (ts.get ⟨i, h⟩).last_sources ∧
      ∀ u ∈ ts.take i, u.tracksSources = true → u.last_sources = []) := by
  induction ts with
  | nil => exact Or.inl ⟨rfl, by simp⟩
  | cons t rest ih =>
    by_cases hb : (t.tracksSources && !t.last_sources.isEmpty) = true
    · have hb2 : t.tracksSources = true ∧ t.last_sources ≠ [] := by
        simpa [List.isEmpty_iff] using hb
      refine Or.inr ⟨0, by simp, hb2.1, hb2.2, ?_, by simp⟩
      show get_last_sources (t :: rest) = t.last_sources
      simp only [get_last_sources]
      rw [if_pos hb]
    · have hskip : get_last_sources (t :: rest) = get_last_sources rest := by
        simp only [get_last_sources]
        rw [if_neg hb]
      rcases ih with ⟨h1, h2⟩ | ⟨i, hi, ha, hne, hg, htake⟩
      · refine Or.inl ⟨by rw [hskip]; exact h1, ?_⟩
        intro u hu htr
        rcases List.mem_cons.mp hu with hu | hu
        · subst hu; exact untriggered_empty u hb htr
        · exact h2 u hu htr
      · refine Or.inr ⟨i + 1, by simpa using Nat.succ_lt_succ hi, ?_, ?_, ?_, ?_⟩
        · simpa using ha
        · simpa using hne
        · rw [hskip]; simpa using hg
        · intro u hu htr
          rcases List.mem_cons.mp (by simpa using hu : u ∈ t :: rest.take i) with hu | hu
          · subst hu; exact untriggered_empty u hb htr
          · exact htake u hu htr

/-- C7 as stated is false: an execution that hits the backend-error path, and
one that hits the zero-matches path, both leave last_sources at its previous
value ["old"] instead of overwriting it with that execution's (empty) set. -/
theorem c7_counterexample :
    CourseSearchTool.execute storeErr ["old"] "q" none none = ("backend down", ["old"]) ∧
    CourseSearchTool.execute storeEmpty ["old"] "q" none none =
      ("No relevant content found.", ["old"]) ∧
    (["old"] : List String) ≠ [] := by
  exact ⟨by decide, by decide, by decide⟩

/-- C7 amended: the SourceEntry set is overwritten — recomputed from this
execution alone, independent of its prior value — exactly on the executions
that produce formatted results (search) or a found outline (outline); the
error, zero-matches and no-course paths leave the set unchanged. -/
theorem c7_sources_overwrite (store : VectorStore) (prior1 prior2 : List String)
    (q : String) (cn : Option String) (ln : Option Int) (course : String) :
    (truthyStr (store.search q cn ln).error = true →
      (CourseSearchTool.execute store prior1 q cn ln).2 = prior1) ∧
    (truthyStr (store.search q cn ln).error = false →
      (store.search q cn ln).is_empty = true →
      (CourseSearchTool.execute store prior1 q cn ln).2 = prior1) ∧
    (truthyStr (store.search q cn ln).error = false →
      (store.search q cn ln).is_empty = false →
      (CourseSearchTool.execute store prior1 q cn ln).2 =
        ((store.search q cn ln).documents.zip (store.search q cn ln).metadata).map
          (fun dm => (formatChunk store dm).2) ∧
      (CourseSearchTool.execute store prior1 q cn ln).2 =
        (CourseSearchTool.execute store prior2 q cn ln).2) ∧
    (∀ o, store.get_course_outline course = some o →
      (CourseOutlineTool.execute store prior1 course).2 = (format_outline o).2 ∧
      (CourseOutlineTool.execute store prior1 course).2 =
        (CourseOutlineTool.execute store prior2 course).2) ∧
    (store.get_course_outline course = none →
      (CourseOutlineTool.execute store prior1 course).2 = prior1) := by
  refine ⟨?_, ?_, ?_, ?_, ?_⟩
  · intro he
    simp only [CourseSearchTool.execute]
    rw [if_pos he]
  · intro he hempty
    simp only [CourseSearchTool.execute]
    rw [if_neg (by simp [he]), if_pos hempty]
  · intro he hempty
    have key : ∀ p : List String, (CourseSearchTool.execute store p q cn ln).2 =
        ((store.search q cn ln).documents.zip (store.search q cn ln).metadata).map
          (fun dm => (formatChunk store dm).2) := by
      intro p
      simp only [CourseSearchTool.execute]
      rw [if_neg (by simp [he]), if_neg (by simp [hempty])]
      rfl
    exact ⟨key prior1, (key prior1).trans (key prior2).symm⟩
  · intro o ho
    unfold CourseOutlineTool.execute
    rw [ho]
    exact ⟨rfl, rfl⟩
  · intro ho
    unfold CourseOutlineTool.execute
    rw [ho]

/-- C8 as stated is false: with course filter "MCP" and lesson filter 0 both
supplied and active, the zero-matches message is identical to the one with no
lesson filter at all — the lesson filter is not named (Python treats 0 as
falsy). -/
theorem c8_counterexample :
    (CourseSearchTool.execute storeEmpty [] "q" (some "MCP") (some 0)).1 =
      "No relevant content found in course 'MCP'." ∧
    (CourseSearchTool.execute storeEmpty [] "q" (some "MCP") (some 0)).1 =
      (CourseSearchTool.execute storeEmpty [] "q" (some "MCP") none).1 := by
  exact ⟨by decide, by decide⟩

/-- C8 amended: on zero backend matches the message names the course filter
when it is a non-empty string and the lesson filter when it is a nonzero
integer (a lesson filter of 0, like an empty course string, is omitted); with
course filter "MCP" and no lesson filter the message is exactly
"No relevant content found in course 'MCP'.". -/
theorem c8_no_content_message (store : VectorStore) (prior : List String) (q c : String)
    (n : Int) :
    (truthyStr (store.search q none none).error = false →
      (store.search q none none).is_empty = true →
      (CourseSearchTool.execute store prior q none none).1 =
        "No relevant content found.") ∧
    (c ≠ "" → truthyStr (store.search q (some c) none).error = false →
      (store.search q (some c) none).is_empty = true →
      (CourseSearchTool.execute store prior q (some c) none).1 =
        "No relevant content found in course '" ++ c ++ "'.") ∧
    (c ≠ "" → n ≠ 0 → truthyStr (store.search q (some c) (some n)).error = false →
      (store.search q (some c) (some n)).is_empty = true →
      (CourseSearchTool.execute store prior q (some c) (some n)).1 =
        "No relevant content found in course '" ++ c ++ "' in lesson " ++ toString n ++
          ".") ∧
    (n ≠ 0 → truthyStr (store.search q none (some n)).error = false →
      (store.search q none (some n)).is_empty = true →
      (CourseSearchTool.execute store prior q none (some n)).1 =
        "No relevant content found in lesson " ++ toString n ++ ".") := by
  refine ⟨?_, ?_, ?_, ?_⟩
  · intro he hempty
    unfold CourseSearchTool.execute
    rw [if_neg (by simp [he]), if_pos hempty]
    simp [truthyStr, truthyInt]
  · intro hc he hempty
    unfold CourseSearchTool.execute
    rw [if_neg (by simp [he]), if_pos hempty]
    simp [truthyStr, truthyInt, hc, String.append_assoc]
    exact str_concat_left "No relevant content found" " in course '"
      "No relevant content found in course '" (c ++ "'.") (by decide)
  · intro hc hn he hempty
    unfold CourseSearchTool.execute
    rw [if_neg (by simp [he]), if_pos hempty]
    simp [truthyStr, truthyInt, hc, hn, String.append_assoc]
    rw [str_concat_left "'" " in lesson " "' in lesson " (toString n ++ ".") (by decide)]
    exact str_concat_left "No relevant content found" " in course '"
      "No relevant content found in course '"
      (c ++ ("' in lesson " ++ (toString n ++ "."))) (by decide)
  · intro hn he hempty
    unfold CourseSearchTool.execute
    rw [if_neg (by simp [he]), if_pos hempty]
    simp [truthyStr, truthyInt, hn, String.append_assoc]
    exact str_concat_left "No relevant content found" " in lesson "
      "No relevant content found in lesson " (toString n ++ ".") (by decide)

/-- C9: the "Total Lessons: n" line is taken from the payload's lesson_count
field (default 0 when absent) while the number of emitted lesson lines is the
length of the lessons list — the two are computed from different fields and
can differ — and a lesson with both keys missing is still emitted, rendered
as "Lesson ?: Untitled". -/
theorem c9_total_lessons_from_field (o : Outline) :
    ("Total Lessons: " ++ toString (o.lesson_count.getD 0)) ∈ outlineParts o ∧
    (outlineParts o).length =
      (if truthyStr o.course_link then 6 else 5) + (o.lessons.getD []).length ∧
    (∀ l ∈ o.lessons.getD [], lessonLine l ∈ outlineParts o) ∧
    lessonLine (OutlineLesson.mk none none) = "  Lesson ?: Untitled" := by
  refine ⟨?_, ?_, ?_, by decide⟩
  · by_cases hcl : truthyStr o.course_link = true
    · simp [outlineParts, hcl]
    · simp [outlineParts, hcl]
  · by_cases hcl : truthyStr o.course_link = true
    · simp [outlineParts, hcl]; omega
    · simp [outlineParts, hcl]; omega
  · intro l hl
    have hmem : lessonLine l ∈ (o.lessons.getD []).map lessonLine :=
      List.mem_map_of_mem _ hl
    unfold outlineParts
    simp only [List.mem_append]
    exact Or.inr hmem

/-- Witness for C1 at a concrete two-round run: the hypotheses hold, the call
log stays within 3, only the first two responses' requests are dispatched, and
the third response's text is returned. -/
theorem c1_witness :
    (generate_response oracleTwoRounds execOk "q" none (some ["td"]) true).calls.length ≤ 3 ∧
    (generate_response oracleTwoRounds execOk "q" none (some ["td"]) true).dispatches =
      roundDispatches (oracleTwoRounds 0).content ++
        roundDispatches (oracleTwoRounds 1).content ∧
    (generate_response oracleTwoRounds execOk "q" none (some ["td"]) true).result =
      extractText (oracleTwoRounds 2).content := by
  have h := c1_round_limit oracleTwoRounds execOk "q" none (some ["td"]) true
  have h2 := h.2 (by decide) (by decide) rfl (by decide) (by decide)
  exact ⟨h.1, h2.1, h2.2⟩

/-- Witness for C2 at a concrete failing run: the failure is converted into the
labeled tool_result and exactly one follow-up call ends the loop. -/
theorem c2_witness :
    (generate_response oracleFailFirst execFail "q" none (some ["td"]) true).calls.length =
      2 ∧
    (generate_response oracleFailFirst execFail "q" none (some ["td"]) true).result =
      extractText (oracleFailFirst 1).content ∧
    ToolResult.mk "t2" "Tool execution error: connection failed" ∈
      roundResults execFail (oracleFailFirst 0).content := by
  have h := (c2_dispatch_exception oracleFailFirst execFail "q" none (some ["td"])).1
    (by decide) (by decide)
  exact ⟨h.1, h.2.2.1, h.2.2.2.2 "t2" "get_course_outline" [("course_name", "MCP")]
    "connection failed" (by decide) rfl⟩

/-- Witness for C3 at two concrete runs: a terminal first response (one call,
text returned) and a terminal response right after one successful tool round
(two calls, that response's text returned, no further dispatch). -/
theorem c3_witness :
    ((oracleText 0).stop_reason ≠ "tool_use" ∨ true = false) ∧
    (generate_response oracleText execOk "q" none none true).calls.length = 1 ∧
    (generate_response oracleText execOk "q" none none true).result = "hi" ∧
    (oracleFailFirst 1).stop_reason ≠ "tool_use" ∧
    (generate_response oracleFailFirst execOk "q" none (some ["td"]) true).calls.length =
      2 ∧
    (generate_response oracleFailFirst execOk "q" none (some ["td"]) true).dispatches =
      roundDispatches (oracleFailFirst 0).content ∧
    (generate_response oracleFailFirst execOk "q" none (some ["td"]) true).result =
      "recovered" := by
  have h := (c3_terminal_response oracleText execOk "q" none none true).1
    (Or.inl (by decide))
  have h2 := (c3_terminal_response oracleFailFirst execOk "q" none
    (some ["td"]) true).2.1 (by decide) rfl (by decide) (by decide)
  refine ⟨Or.inl (by decide), h.1, ?_, by decide, h2.1, h2.2.1, ?_⟩
  · rw [h.2.2.1]
    decide
  · rw [h2.2.2.1]
    decide

/-- Witness for the amended C4 at a concrete run with a truthy tools argument. -/
theorem c4_witness :
    truthyTools (some ["td"]) = true ∧
    ((generate_response oracleText execOk "q" none (some ["td"]) true).calls.get? 0).map
      ApiCall.tools = some (some ["td"]) := by
  refine ⟨by decide, ?_⟩
  have h := c4_tools_on_every_call oracleText execOk "q" none (some ["td"]) true (by decide)
  cases hc : (generate_response oracleText execOk "q" none (some ["td"]) true).calls with
  | nil =>
    have hlen : (generate_response oracleText execOk "q" none
        (some ["td"]) true).calls.length = 1 := by decide
    rw [hc] at hlen
    simp at hlen
  | cons a l =>
    have ha : a ∈ (generate_response oracleText execOk "q" none (some ["td"]) true).calls := by
      rw [hc]
      exact List.mem_cons_self _ _
    have hta := h a ha
    simp [hc, hta]

/-- Witness for C5 at a concrete two-round run: the third call's history has
exactly the five turns in order. -/
theorem c5_witness :
    ((generate_response oracleTwoRounds execOk "q" none (some ["td"]) true).calls.get? 2).map
      ApiCall.messages =
    some [Message.userText "q", Message.assistantBlocks respTool1.content,
      Message.userResults [ToolResult.mk "t1" "ok"],
      Message.assistantBlocks respTool2.content,
      Message.userResults [ToolResult.mk "t2" "ok"]] := by
  have h := (c5_history_growth oracleTwoRounds execOk "q" none (some ["td"])).2.2.2
    (by decide) (by decide) (by decide) (by decide) (by decide)
  rw [h]
  decide

/-- Witness for the amended C6 at a concrete one-tool registry. -/
theorem c6_witness : get_last_sources tsW = ["X"] := by
  rcases c6_first_nonempty tsW with ⟨h1, h2⟩ | ⟨i, hi, ha, hne, hg, htake⟩
  · exact absurd (h2 (RegTool.mk "search_course_content" true ["X"]) (by decide) rfl)
      (by decide)
  · have hi0 : i = 0 := by
      have h1 : i < 1 := by simpa [tsW] using hi
      omega
    subst hi0
    simpa [tsW] using hg

/-- Witness for the amended C7 at concrete stores: success paths overwrite,
the error path keeps the prior sources. -/
theorem c7_witness :
    (CourseSearchTool.execute storeFull ["old"] "q" none none).2 =
      ["[Intro - Lesson 1](http://l1)"] ∧
    (CourseOutlineTool.execute storeFull ["old"] "Course X").2 =
      ["[Course X](http://x)"] ∧
    (CourseSearchTool.execute storeErr ["old"] "q" none none).2 = ["old"] := by
  have h := c7_sources_overwrite storeFull ["old"] ["older"] "q" none none "Course X"
  have hc := h.2.2.1 (by decide) (by decide)
  have ho := h.2.2.2.1 outlineW rfl
  refine ⟨?_, ?_, ?_⟩
  · rw [hc.1]
    decide
  · rw [ho.1]
    decide
  · have h2 := c7_sources_overwrite storeErr ["old"] ["older"] "q" none none "Course X"
    rw [h2.1 (by decide)]

/-- Witness for the amended C8 at a concrete zero-match backend, including the
claim's exact "MCP" message. -/
theorem c8_witness :
    (CourseSearchTool.execute storeEmpty [] "q" (some "MCP") none).1 =
      "No relevant content found in course 'MCP'." ∧
    (CourseSearchTool.execute storeEmpty [] "q" (some "MCP") (some 2)).1 =
      "No relevant content found in course 'MCP' in lesson 2." := by
  have h := c8_no_content_message storeEmpty [] "q" "MCP" 2
  constructor
  · rw [h.2.1 (by decide) (by decide) (by decide)]
    decide
  · rw [h.2.2.1 (by decide) (by decide) (by decide) (by decide)]
    decide

/-- Witness for C9 at a concrete outline whose printed total (5) differs from
its 2 emitted lesson lines, one rendered "Lesson ?: Untitled". -/
theorem c9_witness :
    ("Total Lessons: 5") ∈ outlineParts outlineW ∧
    lessonLine (OutlineLesson.mk none none) ∈ outlineParts outlineW ∧
    (outlineW.lessons.getD []).length = 2 := by
  refine ⟨?_, ?_, by decide⟩
  · have h := (c9_total_lessons_from_field outlineW).1
    have he : ("Total Lessons: " ++ toString (outlineW.lesson_count.getD 0)) =
        "Total Lessons: 5" := by decide
    rw [he] at h
    exact h
  · exact (c9_total_lessons_from_field outlineW).2.2.1 (OutlineLesson.mk none none)
      (by decide)

-- Scratch sanity checks (removed at the end).
